import Mathlib

/-!
Verification of the Task Lifecycle Orchestration subsystem of the
phase-5 todo backend.

The definitions below are a shallow embedding of the Python sources:
  - src/api/models/task.py        (Task, TaskTag data model, enums)
  - src/api/schemas/task.py       (TaskCreate, TaskUpdate input schemas)
  - src/api/config.py             (Settings: topic names, reminder lead time)
  - src/api/exceptions.py         (TaskNotFoundError, TaskValidationError)
  - src/api/dapr/publisher.py     (publish_task_event, publish_task_update_event)
  - src/api/dapr/jobs.py          (JobScheduler: reminder job ids, cancel)
  - src/api/dapr/client.py        (DaprClient.cancel_job over the sidecar HTTP API)
  - src/api/services/task_service.py (TaskService: create, get, update,
    complete, delete)

Timestamps (Python `datetime`) are modelled as integers (epoch instants,
ordered); `datetime.utcnow()` becomes an explicit `now : Int` argument.
The database session is modelled as an explicit `DB` value holding the
task rows and the TaskTag association rows; every service operation
returns the outcome (`Except ServiceError`), the committed database, and
the trace of side effects sent to the Dapr sidecar (event publications
and job scheduling/cancellation calls).  A raised Python exception
corresponds to an `.error` outcome with the input database returned
unchanged (the transaction is not committed) and an empty effect trace.
-/

namespace Phase5

/-- `PriorityEnum` from src/api/models/task.py. -/
inductive PriorityEnum
  | high
  | medium
  | low
deriving DecidableEq

/-- `TaskStatusEnum` from src/api/models/task.py. -/
inductive TaskStatusEnum
  | pending
  | in_progress
  | completed
  | cancelled
deriving DecidableEq

/-- `Task` row from src/api/models/task.py (relationship attributes are
represented by the separate `TaskTag` rows, as in the relational schema). -/
structure Task where
  id : Nat
  title : String
  description : Option String
  due_date : Option Int
  priority : PriorityEnum
  status : TaskStatusEnum
  is_recurring : Bool
  recurring_pattern_id : Option Nat
  user_id : String
  created_at : Int
  updated_at : Int
  completed_at : Option Int
deriving DecidableEq

/-- `TaskTag` association row from src/api/models/task.py
(composite key `(task_id, tag_id)`; the timestamp columns play no role
in any operation and are omitted). -/
structure TaskTag where
  task_id : Nat
  tag_id : Nat
deriving DecidableEq

/-- `TaskCreate` input schema from src/api/schemas/task.py. -/
structure TaskCreate where
  title : String
  description : Option String := none
  due_date : Option Int := none
  priority : PriorityEnum := PriorityEnum.medium
  status : TaskStatusEnum := TaskStatusEnum.pending
  is_recurring : Bool := false
  recurring_pattern_id : Option Nat := none
  tag_ids : Option (List Nat) := none
deriving DecidableEq

/-- A field of the `TaskUpdate` pydantic schema

(src/api/schemas/task.py).  Pydantic distinguishes a field that the
request body did not mention (`unset`, excluded by
`model_dump(exclude_unset=True)`), a field explicitly supplied as JSON
null (`null`, included by the dump with value `None`), and a field
supplied with a value (`set`). -/
inductive Patch (α : Type)
  | unset
  | null
  | set (a : α)
deriving DecidableEq

/-- The `setattr` loop of `TaskService.update_task`
(src/api/services/task_service.py lines 168-171) writes a field exactly
when it is present in the dump and its value `is not None`. -/
def Patch.apply {α : Type} : Patch α → α → α
  | Patch.set a, _ => a
  | _, b => b

/-- `Patch.apply` for a nullable column: a supplied value overwrites, a
null or absent field leaves the column unchanged (it can never be
written back to null through this loop). -/
def Patch.applyOpt {α : Type} : Patch α → Option α → Option α
  | Patch.set a, _ => some a
  | _, b => b

/-- Whether the field was supplied with a (non-null) value. -/
def Patch.isSet {α : Type} : Patch α → Bool
  | Patch.set _ => true
  | _ => false

/-- `TaskUpdate` input schema from src/api/schemas/task.py: every field
optional, each distinguishing unset / null / value. -/
structure TaskUpdate where
  title : Patch String := Patch.unset
  description : Patch String := Patch.unset
  due_date : Patch Int := Patch.unset
  priority : Patch PriorityEnum := Patch.unset
  status : Patch TaskStatusEnum := Patch.unset
  is_recurring : Patch Bool := Patch.unset
  recurring_pattern_id : Patch Nat := Patch.unset
  tag_ids : Patch (List Nat) := Patch.unset
deriving DecidableEq

/-- The configuration values the core depends on, with their defaults
from src/api/config.py `Settings`. -/
structure Settings where
  kafka_topic_task_events : String := "task-events"
  kafka_topic_reminders : String := "reminders"
  kafka_topic_task_updates : String := "task-updates"
  reminder_minutes_before : Int := 30
deriving DecidableEq

/-- The service-level exceptions raised by `TaskService`
(src/api/exceptions.py): `TaskNotFoundError task_id` and
`TaskValidationError message field`. -/
inductive ServiceError
  | notFound (task_id : Nat)
  | validationError (message : String) (field : Option String)
deriving DecidableEq

/-- One call to the Dapr sidecar, as issued by the publisher
(src/api/dapr/publisher.py) or the job scheduler (src/api/dapr/jobs.py).
A `publish` records the topic, the event type, the task snapshot passed
to `_task_to_dict`, and the acting user (the envelope timestamp added by
`EventPublisher.publish` carries no information used by any operation
and is omitted).  A `scheduleJob` records the job id and due time; a
`cancelJob` records the job id. -/
inductive Effect
  | publish (topic : String) (event_type : String) (task : Task) (user_id : String)
  | scheduleJob (job_id : String) (due_time : Int)
  | cancelJob (job_id : String)
deriving DecidableEq

/-- Whether this sidecar call schedules a job. -/
def Effect.isScheduleJob : Effect → Bool
  | Effect.scheduleJob _ _ => true
  | _ => false

/-- Whether this sidecar call is a publication on the given topic. -/
def Effect.publishesOn (topic : String) : Effect → Bool
  | Effect.publish t _ _ _ => t == topic
  | _ => false

/-- The database state owned by the Task Store: task rows, TaskTag
association rows, and the next store-assigned task id. -/
structure DB where
  tasks : List Task
  taskTags : List TaskTag
  nextId : Nat
deriving DecidableEq

/-- `publish_task_event` (src/api/dapr/publisher.py lines 82-109):
wraps the payload and forwards to `settings.kafka_topic_task_events`. -/
def publish_task_event (s : Settings) (event_type : String) (task : Task)
    (user_id : String) : Effect :=
  Effect.publish s.kafka_topic_task_events event_type task user_id

/-- `publish_task_update_event` (src/api/dapr/publisher.py lines
146-173): wraps the payload and forwards to
`settings.kafka_topic_task_updates`.  It is imported by the task service
but never invoked by any lifecycle operation. -/
def publish_task_update_event (s : Settings) (event_type : String) (task : Task)
    (user_id : String) : Effect :=
  Effect.publish s.kafka_topic_task_updates event_type task user_id

/-- The deterministic reminder job identity built by
`JobScheduler.schedule_reminder` and `cancel_reminder`
(src/api/dapr/jobs.py lines 115 and 151). -/
def reminder_job_id (task_id : Nat) : String :=
  "reminder-task-" ++ toString task_id

/-- `JobScheduler.schedule_reminder` (src/api/dapr/jobs.py lines 94-128)
as the sidecar call it issues: a one-shot job with the deterministic id
firing at `remind_at`. -/
def schedule_reminder (task_id : Nat) (remind_at : Int) : Effect :=
  Effect.scheduleJob (reminder_job_id task_id) remind_at

/-- The outcome of a Dapr HTTP call as seen by `DaprClient`
(src/api/dapr/client.py): a `DaprError` wrapping the failed request.
`httpStatus job_id code` records a non-2xx response for the job with the
given id (`httpx.raise_for_status` raised, and `DaprClient.get_client`
re-raised the `httpx.HTTPError` as `DaprError`). -/
inductive DaprError
  | httpStatus (job_id : String) (code : Nat)
deriving DecidableEq

/-- `DaprClient.cancel_job` (src/api/dapr/client.py lines 279-289):
sends `DELETE /jobs/{job_id}` and calls `response.raise_for_status()`.
The sidecar is external; its response status for a given job id is an
input (`gateway : String → Nat`).  `raise_for_status` succeeds exactly
on a 2xx status; any other status becomes a `DaprError` (via the
`get_client` context manager).  There is no special case for an absent
job. -/
def DaprClient.cancel_job (gateway : String → Nat) (job_id : String) :
    Except DaprError Unit :=
  let code := gateway job_id
  if 200 ≤ code ∧ code < 300 then Except.ok ()
  else Except.error (DaprError.httpStatus job_id code)

/-- `JobScheduler.cancel_job` (src/api/dapr/jobs.py lines 130-142):
forwards to `DaprClient.cancel_job` and propagates its outcome
unchanged (no exception handling). -/
def JobScheduler.cancel_job (gateway : String → Nat) (job_id : String) :
    Except DaprError Unit :=
  DaprClient.cancel_job gateway job_id

/-- `JobScheduler.cancel_reminder` (src/api/dapr/jobs.py lines
144-152): builds the deterministic job id and forwards to `cancel_job`,
propagating its outcome unchanged. -/
def cancel_reminder (gateway : String → Nat) (task_id : Nat) :
    Except DaprError Unit :=
  JobScheduler.cancel_job gateway (reminder_job_id task_id)

/-- The due-date guard of `TaskService.create_task`
(src/api/services/task_service.py line 68): Python
`task_data.due_date and task_data.due_date < datetime.utcnow()` — a
present due date strictly before now. -/
def pastDue (due : Option Int) (now : Int) : Bool :=
  match due with
  | some d => decide (d < now)
  | none => false

/-- `TaskService.get_task` (src/api/services/task_service.py lines
112-138): single-row lookup scoped by both id and user id
(`select(Task).where(Task.id == task_id, Task.user_id == user_id)`,
`scalar_one_or_none`); raises `TaskNotFoundError(task_id)` when no row
matches. -/
def get_task (db : DB) (task_id : Nat) (user_id : String) :
    Except ServiceError Task :=
  match db.tasks.find? (fun x => x.id == task_id && x.user_id == user_id) with
  | some t => Except.ok t
  | none => Except.error (ServiceError.notFound task_id)

/-- `TaskService._associate_tags` (src/api/services/task_service.py
lines 335-345): add one `TaskTag` row per tag id in the list. -/
def associate_tags (task_id : Nat) (tag_ids : List Nat) : List TaskTag :=
  tag_ids.map (fun g => TaskTag.mk task_id g)

/-- `TaskService._update_tags` (src/api/services/task_service.py lines
347-364): delete every existing `TaskTag` row of the task, then insert
one row per id of the new list (delete-all-then-insert, not a diff). -/
def update_tags (assocs : List TaskTag) (task_id : Nat) (tag_ids : List Nat) :
    List TaskTag :=
  assocs.filter (fun tt => ! (tt.task_id == task_id)) ++ associate_tags task_id tag_ids

/-- `TaskService.create_task` (src/api/services/task_service.py lines
44-110).  Validates the due date before touching the store; builds the
row with store defaults (`created_at`/`updated_at` = now,
`completed_at` = null, id store-assigned); associates tags only when the
supplied list is truthy (Python `if task_data.tag_ids:` — both an
absent and an empty list associate nothing); commits; publishes one
`created` event via `publish_task_event`.  No reminder job is
scheduled anywhere in this operation. -/
def create_task (db : DB) (now : Int) (input : TaskCreate) (user_id : String)
    (s : Settings) : Except ServiceError Task × DB × List Effect :=
  if pastDue input.due_date now then
    (Except.error (ServiceError.validationError ("Due date cannot be in the past")
      (some ("due_date"))), db, [])
  else
    let task : Task :=
      { id := db.nextId
        title := input.title
        description := input.description
        due_date := input.due_date
        priority := input.priority
        status := input.status
        is_recurring := input.is_recurring
        recurring_pattern_id := input.recurring_pattern_id
        user_id := user_id
        created_at := now
        updated_at := now
        completed_at := none }
    let newAssocs :=
      match input.tag_ids with
      | some l => associate_tags db.nextId l
      | none => []
    let db1 : DB :=
      { tasks := db.tasks ++ [task]
        taskTags := db.taskTags ++ newAssocs
        nextId := db.nextId + 1 }
    (Except.ok task, db1, [publish_task_event s ("created") task user_id])

/-- The field-application part of `TaskService.update_task`
(src/api/services/task_service.py lines 167-171): for every field of
the dump that is present and not null, overwrite the column; all other
columns (including `id`, `user_id`, `created_at`, `completed_at`, which
are not part of `TaskUpdate` at all) are left untouched. -/
def apply_update (u : TaskUpdate) (t : Task) : Task :=
  { t with
    title := u.title.apply t.title
    description := u.description.applyOpt t.description
    due_date := u.due_date.applyOpt t.due_date
    priority := u.priority.apply t.priority
    status := u.status.apply t.status
    is_recurring := u.is_recurring.apply t.is_recurring
    recurring_pattern_id := u.recurring_pattern_id.applyOpt t.recurring_pattern_id }

/-- The row as it stands after the `setattr` loop and the
`task.updated_at = datetime.utcnow()` stamp of `update_task`
(src/api/services/task_service.py lines 167-177). -/
def updated_task (u : TaskUpdate) (t : Task) (now : Int) : Task :=
  { apply_update u t with updated_at := now }

/-- `TaskService.update_task` (src/api/services/task_service.py lines
140-191).  Fetches via `get_task` (ownership and existence enforced
there); applies the supplied non-null fields; replaces the tag
association set when `tag_ids is not None` (an empty list is a
replacement by the empty set); stamps `updated_at`; commits; publishes
one `updated` event via `publish_task_event`.  No due-date validation
is performed. -/
def update_task (db : DB) (now : Int) (task_id : Nat) (u : TaskUpdate)
    (user_id : String) (s : Settings) :
    Except ServiceError Task × DB × List Effect :=
  match get_task db task_id user_id with
  | Except.error e => (Except.error e, db, [])
  | Except.ok t =>
    let t1 : Task := updated_task u t now
    let assocs :=
      match u.tag_ids with
      | Patch.set l => update_tags db.taskTags task_id l
      | _ => db.taskTags
    let db1 : DB :=
      { tasks := db.tasks.map (fun x => if x.id == task_id then t1 else x)
        taskTags := assocs
        nextId := db.nextId }
    (Except.ok t1, db1, [publish_task_event s ("updated") t1 user_id])

/-- `TaskService.complete_task` (src/api/services/task_service.py lines
193-230).  Fetches via `get_task`; sets status to completed and stamps
`completed_at` and `updated_at`; commits; publishes one `completed`
event via `publish_task_event`. -/
def complete_task (db : DB) (now : Int) (task_id : Nat) (user_id : String)
    (s : Settings) : Except ServiceError Task × DB × List Effect :=
  match get_task db task_id user_id with
  | Except.error e => (Except.error e, db, [])
  | Except.ok t =>
    let t1 : Task :=
      { t with
        status := TaskStatusEnum.completed
        completed_at := some now
        updated_at := now }
    let db1 : DB :=
      { tasks := db.tasks.map (fun x => if x.id == task_id then t1 else x)
        taskTags := db.taskTags
        nextId := db.nextId }
    (Except.ok t1, db1, [publish_task_event s ("completed") t1 user_id])

/-- `TaskService.delete_task` (src/api/services/task_service.py lines
232-263).  Fetches via `get_task`; captures the snapshot for the event
before deletion; deletes the row; commits; publishes one `deleted`
event via `publish_task_event` carrying the pre-deletion snapshot. -/
def delete_task (db : DB) (task_id : Nat) (user_id : String) (s : Settings) :
    Except ServiceError Unit × DB × List Effect :=
  match get_task db task_id user_id with
  | Except.error e => (Except.error e, db, [])
  | Except.ok t =>
    let db1 : DB :=
      { tasks := db.tasks.filter (fun x => ! (x.id == task_id))
        taskTags := db.taskTags
        nextId := db.nextId }
    (Except.ok (), db1, [publish_task_event s ("deleted") t user_id])

/-- The spec invariant of §3: `completed_at` is non-null iff
`status = completed`. -/
def completedInv (t : Task) : Prop :=
  t.completed_at ≠ none ↔ t.status = TaskStatusEnum.completed

instance (t : Task) : Decidable (completedInv t) := by
  unfold completedInv
  infer_instance

/-! Concrete fixtures used by witnesses and counterexamples. -/

/-- A concrete settings value: the defaults of src/api/config.py. -/
def exSettings : Settings := {}

/-- A concrete pending task owned by user u1. -/
def exTask1 : Task :=
  { id := 1
    title := "Submit report"
    description := none
    due_date := some 1000
    priority := PriorityEnum.high
    status := TaskStatusEnum.pending
    is_recurring := false
    recurring_pattern_id := none
    user_id := "u1"
    created_at := 0
    updated_at := 0
    completed_at := none }

/-- A concrete store: one task owned by u1, carrying tags 1 and 2. -/
def exDB : DB :=
  { tasks := [exTask1]
    taskTags := [TaskTag.mk 1 1, TaskTag.mk 1 2]
    nextId := 2 }

/-! Claim theorems. -/

/-- C4, counterexample: the claim says cancelling an absent reminder job
never propagates an error to the caller.  In the code,
`DaprClient.cancel_job` calls `raise_for_status()` with no handling of
any status, and neither `JobScheduler.cancel_job` nor `cancel_reminder`
catches anything.  With a sidecar that answers 404 Not Found for the
absent job id, `cancel_reminder` returns the propagated `DaprError`
rather than success. -/
theorem C4_counterexample :
    cancel_reminder (fun _ => 404) 42 =
      Except.error (DaprError.httpStatus ("reminder-task-42") 404) := by
  rfl

/-- C4, amended: `cancel_reminder` succeeds exactly when the sidecar
answers the DELETE of the deterministic job id with a 2xx status;
otherwise the non-2xx answer is propagated unchanged as a `DaprError`
to the caller.  No caller-side tolerance for an absent job exists. -/
theorem C4_cancel_propagates_gateway_outcome (gateway : String → Nat) (task_id : Nat) :
    (cancel_reminder gateway task_id = Except.ok () ↔
      200 ≤ gateway (reminder_job_id task_id) ∧ gateway (reminder_job_id task_id) < 300) ∧
    (cancel_reminder gateway task_id = Except.ok () ∨
      cancel_reminder gateway task_id = Except.error (DaprError.httpStatus
        (reminder_job_id task_id) (gateway (reminder_job_id task_id)))) := by
  unfold cancel_reminder JobScheduler.cancel_job DaprClient.cancel_job
  by_cases hc : 200 ≤ gateway (reminder_job_id task_id) ∧ gateway (reminder_job_id task_id) < 300
  · constructor
    · simp only [if_pos hc]
      exact ⟨fun _ => hc, fun _ => trivial⟩
    · exact Or.inl (by simp only [if_pos hc])
  · constructor
    · simp only [if_neg hc]
      constructor
      · intro h
        exact absurd h (fun h => Except.noConfusion h)
      · intro h
        exact absurd h hc
    · exact Or.inr (by simp only [if_neg hc])

/-- The task materialized by the C1 example creation: store-assigned id
2, defaults for the optional fields, timestamps stamped at now = 500. -/
def exCreated : Task :=
  { id := 2
    title := "Submit report"
    description := none
    due_date := some 800
    priority := PriorityEnum.medium
    status := TaskStatusEnum.pending
    is_recurring := false
    recurring_pattern_id := none
    user_id := "u1"
    created_at := 500
    updated_at := 500
    completed_at := none }

/-- C1, counterexample: the claim says a successful `create_task` whose
input has a due date set asks the Reminder Scheduler for a job with id
reminder-task-(id).  On this concrete creation (due date 800, now 500,
so validation passes) the whole side-effect trace is the single
`created` publication: no `scheduleJob` call appears at all —
`TaskService.create_task` never invokes the scheduler. -/
theorem C1_counterexample :
    (create_task exDB 500 { title := ("Submit report"), due_date := some 800 }
      "u1" exSettings =
      (Except.ok exCreated,
       { tasks := [exTask1, exCreated]
         taskTags := [TaskTag.mk 1 1, TaskTag.mk 1 2]
         nextId := 3 },
       [Effect.publish ("task-events") ("created") exCreated ("u1")])) ∧
    ((create_task exDB 500 { title := ("Submit report"), due_date := some 800 }
      "u1" exSettings).2.2.all (fun e => ! Effect.isScheduleJob e) = true) := by
  constructor
  · rfl
  · rfl

/-- C1, amended: on every successful `create_task` the side-effect
trace is exactly one `created` publication of the materialized task via
`publish_task_event`; no reminder job is scheduled, whether or not
due_date is set. -/
theorem C1_create_publishes_created_schedules_nothing
    (db : DB) (now : Int) (input : TaskCreate) (user_id : String) (s : Settings)
    (t : Task) (db1 : DB) (effs : List Effect)
    (h : create_task db now input user_id s = (Except.ok t, db1, effs)) :
    effs = [publish_task_event s ("created") t user_id] ∧
    effs.all (fun e => ! Effect.isScheduleJob e) = true := by
  by_cases hp : pastDue input.due_date now
  · simp [create_task, hp] at h
  · simp only [create_task, hp, Bool.false_eq_true, if_false, Prod.mk.injEq,
      Except.ok.injEq] at h
    obtain ⟨h1, _, h3⟩ := h
    subst h1
    subst h3
    exact ⟨rfl, rfl⟩

/-- C1, witness: the amended theorem applied to the concrete creation
of `exCreated`. -/
theorem C1_witness :
    (create_task exDB 500 { title := ("Submit report"), due_date := some 800 }
      "u1" exSettings).2.2 = [publish_task_event exSettings ("created") exCreated ("u1")] ∧
    ((create_task exDB 500 { title := ("Submit report"), due_date := some 800 }
      "u1" exSettings).2.2.all (fun e => ! Effect.isScheduleJob e) = true) :=
  C1_create_publishes_created_schedules_nothing exDB 500
    { title := ("Submit report"), due_date := some 800 } "u1" exSettings
    exCreated { tasks := [exTask1, exCreated]
                taskTags := [TaskTag.mk 1 1, TaskTag.mk 1 2]
                nextId := 3 } _ rfl

/-- C2, counterexample: the claim says the event of every lifecycle mutation
is published to both the lifecycle topic (task-events) and the
live-sync topic (task-updates).  On this concrete creation the trace
holds exactly one publication, it is on task-events, and nothing is
published on task-updates. -/
theorem C2_counterexample :
    ((create_task exDB 500 { title := ("note") } "u1" exSettings).2.2.length = 1) ∧
    ((create_task exDB 500 { title := ("note") } "u1" exSettings).2.2.all
      (fun e => Effect.publishesOn ("task-events") e) = true) ∧
    ((create_task exDB 500 { title := ("note") } "u1" exSettings).2.2.all
      (fun e => ! Effect.publishesOn ("task-updates") e) = true) := by
  refine ⟨rfl, ?_, ?_⟩ <;> decide

/-- C2, amended: every lifecycle mutation (create, update, complete,
delete) publishes at most one event, and every publication in its trace
is on the single configured lifecycle topic
`settings.kafka_topic_task_events`; the live-sync publisher
`publish_task_update_event` (topic task-updates) is never invoked by
any of the four operations. -/
theorem C2_events_single_topic
    (db : DB) (now : Int) (task_id : Nat) (input : TaskCreate) (u : TaskUpdate)
    (user_id : String) (s : Settings) :
    ((create_task db now input user_id s).2.2.all
      (fun e => Effect.publishesOn s.kafka_topic_task_events e) = true) ∧
    ((create_task db now input user_id s).2.2.length ≤ 1) ∧
    ((update_task db now task_id u user_id s).2.2.all
      (fun e => Effect.publishesOn s.kafka_topic_task_events e) = true) ∧
    ((update_task db now task_id u user_id s).2.2.length ≤ 1) ∧
    ((complete_task db now task_id user_id s).2.2.all
      (fun e => Effect.publishesOn s.kafka_topic_task_events e) = true) ∧
    ((complete_task db now task_id user_id s).2.2.length ≤ 1) ∧
    ((delete_task db task_id user_id s).2.2.all
      (fun e => Effect.publishesOn s.kafka_topic_task_events e) = true) ∧
    ((delete_task db task_id user_id s).2.2.length ≤ 1) := by
  refine ⟨?_, ?_, ?_, ?_, ?_, ?_, ?_, ?_⟩
  · by_cases hp : pastDue input.due_date now <;>
      simp [create_task, hp, publish_task_event, Effect.publishesOn]
  · by_cases hp : pastDue input.due_date now <;>
      simp [create_task, hp]
  · cases hg : get_task db task_id user_id <;>
      simp [update_task, hg, publish_task_event, Effect.publishesOn]
  · cases hg : get_task db task_id user_id <;>
      simp [update_task, hg]
  · cases hg : get_task db task_id user_id <;>
      simp [complete_task, hg, publish_task_event, Effect.publishesOn]
  · cases hg : get_task db task_id user_id <;>
      simp [complete_task, hg]
  · cases hg : get_task db task_id user_id <;>
      simp [delete_task, hg, publish_task_event, Effect.publishesOn]
  · cases hg : get_task db task_id user_id <;>
      simp [delete_task, hg]

/-- C5: `create_task` with a present due date strictly before now
raises `TaskValidationError` on the field due_date, persists no task
row and no TaskTag row (the returned store equals the input store), and
publishes nothing — the guard runs before any mutation
(src/api/services/task_service.py lines 67-72). -/
theorem C5_create_past_due_rejected
    (db : DB) (now : Int) (input : TaskCreate) (user_id : String) (s : Settings)
    (d : Int) (hd : input.due_date = some d) (hlt : d < now) :
    create_task db now input user_id s =
      (Except.error (ServiceError.validationError ("Due date cannot be in the past")
        (some ("due_date"))), db, []) := by
  unfold create_task
  have hp : pastDue input.due_date now = true := by
    simp [pastDue, hd, hlt]
  simp [hp]

/-- C5, witness: creating a task due at instant 400 when now is 500
fails with the validation error and leaves the store untouched. -/
theorem C5_create_past_due_witness :
    create_task exDB 500 { title := "late", due_date := some 400 } "u1" exSettings =
      (Except.error (ServiceError.validationError ("Due date cannot be in the past")
        (some ("due_date"))), exDB, []) :=
  C5_create_past_due_rejected exDB 500 { title := "late", due_date := some 400 }
    "u1" exSettings 400 rfl (by decide)

/-- C3, counterexample: the claim says the invariant "completed_at is
non-null iff status = completed" is preserved by `update_task` for
every input, including one that sets status to completed.  Starting
from `exTask1` (pending, completed_at null — the invariant holds), an
update whose body is exactly (status completed) produces a task with
status completed and completed_at still null: the `setattr` loop writes
status but `update_task` never touches completed_at. -/
theorem C3_counterexample :
    completedInv exTask1 ∧
    ((update_task exDB 500 1 { status := Patch.set TaskStatusEnum.completed }
      "u1" exSettings).1 =
      Except.ok { exTask1 with status := TaskStatusEnum.completed, updated_at := 500 }) ∧
    ¬ completedInv { exTask1 with status := TaskStatusEnum.completed, updated_at := 500 } := by
  refine ⟨by decide, rfl, by decide⟩

/-- C3, amended: `complete_task` always establishes the invariant
"completed_at is non-null iff status = completed"; `create_task`
establishes it whenever the input status is not completed (an input
status of completed would yield completed_at null); `update_task`
preserves it exactly when the applied status does not change
completed-ness — in particular for every update that does not supply a
status.  An update that sets status to completed, or moves it away from
completed, violates the invariant. -/
theorem C3_completed_invariant_amended
    (db dbN dbU : DB) (now nowN nowU : Int) (task_id idU : Nat)
    (user userN userU : String) (s sN sU : Settings)
    (input : TaskCreate) (u : TaskUpdate) (t tC tN tU : Task)
    (dbC1 dbN1 dbU1 : DB) (eC eN eU : List Effect)
    (hC : complete_task db now task_id user s = (Except.ok tC, dbC1, eC))
    (hN : create_task dbN nowN input userN sN = (Except.ok tN, dbN1, eN))
    (hNs : input.status ≠ TaskStatusEnum.completed)
    (hU : get_task dbU idU userU = Except.ok t)
    (hU2 : update_task dbU nowU idU u userU sU = (Except.ok tU, dbU1, eU))
    (hUinv : completedInv t)
    (hUkeep : u.status.apply t.status = TaskStatusEnum.completed ↔
      t.status = TaskStatusEnum.completed) :
    completedInv tC ∧ completedInv tN ∧ completedInv tU := by
  refine ⟨?_, ?_, ?_⟩
  · cases hg : get_task db task_id user with
    | error e => simp [complete_task, hg] at hC
    | ok t0 =>
      simp only [complete_task, hg, Prod.mk.injEq, Except.ok.injEq] at hC
      obtain ⟨h1, _, _⟩ := hC
      subst h1
      simp [completedInv]
  · by_cases hp : pastDue input.due_date nowN
    · simp [create_task, hp] at hN
    · simp only [create_task, hp, Bool.false_eq_true, if_false, Prod.mk.injEq,
        Except.ok.injEq] at hN
      obtain ⟨h1, _, _⟩ := hN
      subst h1
      simp [completedInv, hNs]
  · simp only [update_task, hU, Prod.mk.injEq, Except.ok.injEq] at hU2
    obtain ⟨h1, _, _⟩ := hU2
    subst h1
    unfold completedInv at hUinv ⊢
    simp only [updated_task, apply_update]
    rw [hUkeep]
    exact hUinv

/-- C3, witness for the amended theorem: completing `exTask1` at
instant 500 yields a task satisfying the invariant; creating a pending
task yields one satisfying it; an update of `exTask1` touching only the title (status
unset) preserves it. -/
theorem C3_witness :
    completedInv { exTask1 with
      status := TaskStatusEnum.completed
      completed_at := some 500
      updated_at := 500 } ∧
    completedInv exCreated ∧
    completedInv { exTask1 with
      title := "renamed"
      updated_at := 600 } :=
  C3_completed_invariant_amended exDB exDB exDB 500 500 600 1 1 "u1" "u1" "u1"
    exSettings exSettings exSettings
    { title := ("Submit report"), due_date := some 800 }
    { title := Patch.set ("renamed") }
    exTask1
    { exTask1 with
      status := TaskStatusEnum.completed
      completed_at := some 500
      updated_at := 500 }
    exCreated
    { exTask1 with
      title := "renamed"
      updated_at := 600 }
    _ _ _ _ _ _
    rfl rfl (by decide) rfl rfl (by decide) (by decide)

/-- C8: `get_task` scoped by (id, user) fails with
`TaskNotFoundError task_id` for user A when every row with that id
belongs to someone else — even when such a row exists, owned by user B.
The outcome is the same error the lookup produces when the row is
absent altogether (second conjunct: the store with the row deleted),
and `update_task`, `complete_task` and `delete_task`, which all fetch
via `get_task`, fail identically with no state change and no published
event. -/
theorem C8_ownership_isolation
    (db : DB) (now : Int) (task_id : Nat) (userA userB : String) (t : Task)
    (u : TaskUpdate) (s : Settings)
    (hmem : t ∈ db.tasks) (hid : t.id = task_id) (hB : t.user_id = userB)
    (hAB : userA ≠ userB)
    (hforeign : ∀ x ∈ db.tasks, x.id = task_id → x.user_id ≠ userA) :
    get_task db task_id userA = Except.error (ServiceError.notFound task_id) ∧
    get_task { tasks := db.tasks.filter (fun x => ! (x.id == task_id))
               taskTags := db.taskTags
               nextId := db.nextId } task_id userA =
      Except.error (ServiceError.notFound task_id) ∧
    update_task db now task_id u userA s =
      (Except.error (ServiceError.notFound task_id), db, []) ∧
    complete_task db now task_id userA s =
      (Except.error (ServiceError.notFound task_id), db, []) ∧
    delete_task db task_id userA s =
      (Except.error (ServiceError.notFound task_id), db, []) := by
  have hnone : db.tasks.find?
      (fun x => x.id == task_id && x.user_id == userA) = none := by
    rw [List.find?_eq_none]
    intro x hx
    simp only [Bool.and_eq_true, beq_iff_eq, not_and]
    intro hxid
    exact hforeign x hx hxid
  have hget : get_task db task_id userA =
      Except.error (ServiceError.notFound task_id) := by
    simp [get_task, hnone]
  refine ⟨hget, ?_, ?_, ?_, ?_⟩
  · have hnone2 : (db.tasks.filter (fun x => ! (x.id == task_id))).find?
        (fun x => x.id == task_id && x.user_id == userA) = none := by
      rw [List.find?_eq_none]
      intro x hx
      have hxp := (List.mem_filter.mp hx).2
      simp only [Bool.not_eq_true', beq_eq_false_iff_ne] at hxp
      simp only [Bool.and_eq_true, beq_iff_eq, not_and]
      intro hxid
      exact absurd hxid hxp
    simp [get_task, hnone2]
  · simp [update_task, hget]
  · simp [complete_task, hget]
  · simp [delete_task, hget]

/-- C8, witness: user u2 looking up task 1 (owned by u1) in the
concrete store gets exactly the not-found error, identically across the
read and all three mutations. -/
theorem C8_witness :
    get_task exDB 1 "u2" = Except.error (ServiceError.notFound 1) ∧
    get_task { tasks := exDB.tasks.filter (fun x => ! (x.id == 1))
               taskTags := exDB.taskTags
               nextId := exDB.nextId } 1 "u2" =
      Except.error (ServiceError.notFound 1) ∧
    update_task exDB 600 1 {} "u2" exSettings =
      (Except.error (ServiceError.notFound 1), exDB, []) ∧
    complete_task exDB 600 1 "u2" exSettings =
      (Except.error (ServiceError.notFound 1), exDB, []) ∧
    delete_task exDB 1 "u2" exSettings =
      (Except.error (ServiceError.notFound 1), exDB, []) :=
  C8_ownership_isolation exDB 600 1 "u2" "u1" exTask1 {} exSettings
    (by decide) rfl rfl (by decide) (by decide)

/-! Helper lemmas about the tag-association combinators. -/

/-- Every row inserted by `associate_tags` carries the id of the task. -/
theorem associate_tags_filter_keep (task_id : Nat) (l : List Nat) :
    (associate_tags task_id l).filter (fun tt => tt.task_id == task_id) =
      associate_tags task_id l := by
  induction l with
  | nil => rfl
  | cons a l ih =>
      simp only [associate_tags, List.map_cons, List.filter_cons] at ih ⊢
      simp [ih]

/-- No row inserted by `associate_tags` belongs to a different task. -/
theorem associate_tags_filter_drop (task_id : Nat) (l : List Nat) :
    (associate_tags task_id l).filter (fun tt => ! (tt.task_id == task_id)) = [] := by
  induction l with
  | nil => rfl
  | cons a l ih =>
      simp only [associate_tags, List.map_cons, List.filter_cons] at ih ⊢
      simp [ih]

/-- The tag ids of the rows inserted by `associate_tags` are exactly the
given list, in order. -/
theorem associate_tags_map_tag_id (task_id : Nat) (l : List Nat) :
    (associate_tags task_id l).map TaskTag.tag_id = l := by
  induction l with
  | nil => rfl
  | cons a l ih =>
      simp only [associate_tags, List.map_cons] at ih ⊢
      simp [ih]

/-- After dropping the rows of a task, none of its rows remain. -/
theorem filter_not_then_keep (A : List TaskTag) (task_id : Nat) :
    (A.filter (fun tt => ! (tt.task_id == task_id))).filter
      (fun tt => tt.task_id == task_id) = [] := by
  induction A with
  | nil => rfl
  | cons a A ih =>
      by_cases h : (a.task_id == task_id) = true
      · simp [List.filter_cons, h, ih]
      · simp [List.filter_cons, h, ih]

/-- Dropping the rows of a task twice is the same as dropping them once. -/
theorem filter_not_idem (A : List TaskTag) (task_id : Nat) :
    (A.filter (fun tt => ! (tt.task_id == task_id))).filter
      (fun tt => ! (tt.task_id == task_id)) =
      A.filter (fun tt => ! (tt.task_id == task_id)) := by
  induction A with
  | nil => rfl
  | cons a A ih =>
      by_cases h : (a.task_id == task_id) = true
      · simp [List.filter_cons, h, ih]
      · simp [List.filter_cons, h, ih]

/-- After `update_tags`, the association rows of the task are exactly the
inserted ones. -/
theorem update_tags_keep (A : List TaskTag) (task_id : Nat) (l : List Nat) :
    (update_tags A task_id l).filter (fun tt => tt.task_id == task_id) =
      associate_tags task_id l := by
  unfold update_tags
  rw [List.filter_append, filter_not_then_keep, associate_tags_filter_keep]
  rfl

/-- `update_tags` does not touch the association rows of any other task. -/
theorem update_tags_drop (A : List TaskTag) (task_id : Nat) (l : List Nat) :
    (update_tags A task_id l).filter (fun tt => ! (tt.task_id == task_id)) =
      A.filter (fun tt => ! (tt.task_id == task_id)) := by
  unfold update_tags
  rw [List.filter_append, filter_not_idem, associate_tags_filter_drop]
  simp

/-- Replacing the tag list of a task with the same list twice equals doing
it once. -/
theorem update_tags_idem (A : List TaskTag) (task_id : Nat) (l : List Nat) :
    update_tags (update_tags A task_id l) task_id l = update_tags A task_id l := by
  conv_lhs => rw [update_tags]
  rw [update_tags_drop]
  rfl

/-- C7: when `update_task` is given a tag list, the resulting
association rows of the task are exactly one row per id of the given list (in
order), regardless of the prior set, and rows of other tasks are
untouched — the delete-all-then-insert semantics of `_update_tags`. -/
theorem C7_tag_replacement
    (db : DB) (now : Int) (task_id : Nat) (u : TaskUpdate) (user_id : String)
    (s : Settings) (l : List Nat) (t1 : Task) (db1 : DB) (e1 : List Effect)
    (hl : u.tag_ids = Patch.set l)
    (h : update_task db now task_id u user_id s = (Except.ok t1, db1, e1)) :
    (db1.taskTags.filter (fun tt => tt.task_id == task_id)).map TaskTag.tag_id = l ∧
    db1.taskTags.filter (fun tt => ! (tt.task_id == task_id)) =
      db.taskTags.filter (fun tt => ! (tt.task_id == task_id)) := by
  cases hg : get_task db task_id user_id with
  | error e => simp [update_task, hg] at h
  | ok t =>
      simp only [update_task, hg, hl, Prod.mk.injEq, Except.ok.injEq] at h
      obtain ⟨_, h2, _⟩ := h
      subst h2
      dsimp only
      constructor
      · rw [update_tags_keep, associate_tags_map_tag_id]
      · rw [update_tags_drop]

/-- C7, witness: the example given by the spec itself — prior tags {1,2} on task 1,
updated with [2,3], yields exactly the rows (1,2) and (1,3). -/
theorem C7_witness :
    (([TaskTag.mk 1 2, TaskTag.mk 1 3].filter
      (fun tt => tt.task_id == 1)).map TaskTag.tag_id = [2, 3]) ∧
    ([TaskTag.mk 1 2, TaskTag.mk 1 3].filter (fun tt => ! (tt.task_id == 1)) =
      exDB.taskTags.filter (fun tt => ! (tt.task_id == 1))) :=
  C7_tag_replacement exDB 600 1 { tag_ids := Patch.set [2, 3] } "u1" exSettings
    [2, 3] { exTask1 with updated_at := 600 }
    { tasks := [{ exTask1 with updated_at := 600 }]
      taskTags := [TaskTag.mk 1 2, TaskTag.mk 1 3]
      nextId := 2 }
    [publish_task_event exSettings ("updated") ({ exTask1 with updated_at := 600 }) "u1"]
    rfl rfl

/-- C9: the `setattr` loop of `update_task` skips every field whose
supplied value is null, so a null `due_date`, `description` (or any
other scalar) leaves the prior value in place — a non-null `due_date`
or `description` can never be cleared back to null by any update.  By
contrast a supplied empty `tag_ids` list (present, not null) removes
every tag association of the task, while a null `tag_ids` leaves the
associations unchanged. -/
theorem C9_null_fields_ignored
    (db : DB) (now : Int) (task_id : Nat) (u : TaskUpdate) (user_id : String)
    (s : Settings) (t t1 : Task) (db1 : DB) (e1 : List Effect)
    (ht : get_task db task_id user_id = Except.ok t)
    (h : update_task db now task_id u user_id s = (Except.ok t1, db1, e1)) :
    (u.title = Patch.null → t1.title = t.title) ∧
    (u.description = Patch.null → t1.description = t.description) ∧
    (u.due_date = Patch.null → t1.due_date = t.due_date) ∧
    (u.priority = Patch.null → t1.priority = t.priority) ∧
    (u.status = Patch.null → t1.status = t.status) ∧
    (u.is_recurring = Patch.null → t1.is_recurring = t.is_recurring) ∧
    (u.recurring_pattern_id = Patch.null → t1.recurring_pattern_id = t.recurring_pattern_id) ∧
    (t.due_date ≠ none → t1.due_date ≠ none) ∧
    (t.description ≠ none → t1.description ≠ none) ∧
    (u.tag_ids = Patch.set [] →
      db1.taskTags.filter (fun tt => tt.task_id == task_id) = []) ∧
    (u.tag_ids = Patch.null → db1.taskTags = db.taskTags) := by
  simp only [update_task, ht, Prod.mk.injEq, Except.ok.injEq] at h
  obtain ⟨h1, h2, _⟩ := h
  subst h1
  subst h2
  refine ⟨?_, ?_, ?_, ?_, ?_, ?_, ?_, ?_, ?_, ?_, ?_⟩
  · intro hq; simp [updated_task, apply_update, hq, Patch.apply]
  · intro hq; simp [updated_task, apply_update, hq, Patch.applyOpt]
  · intro hq; simp [updated_task, apply_update, hq, Patch.applyOpt]
  · intro hq; simp [updated_task, apply_update, hq, Patch.apply]
  · intro hq; simp [updated_task, apply_update, hq, Patch.apply]
  · intro hq; simp [updated_task, apply_update, hq, Patch.apply]
  · intro hq; simp [updated_task, apply_update, hq, Patch.applyOpt]
  · intro hq
    cases hdd : u.due_date <;>
      simp [updated_task, apply_update, Patch.applyOpt, hdd, hq]
  · intro hq
    cases hdd : u.description <;>
      simp [updated_task, apply_update, Patch.applyOpt, hdd, hq]
  · intro hq
    simp only [hq]
    rw [update_tags_keep]
    rfl
  · intro hq
    simp only [hq]

/-- C9, witness: updating `exTask1` (due date 1000, description null)
with a null due_date, a null description and an empty tag list keeps
due_date = 1000 and removes both tag rows of task 1. -/
theorem C9_witness :
    (({ exTask1 with updated_at := 700 } : Task).due_date = exTask1.due_date) ∧
    (exTask1.due_date ≠ none → ({ exTask1 with updated_at := 700 } : Task).due_date ≠ none) ∧
    (([] : List TaskTag).filter (fun tt => tt.task_id == 1) = []) := by
  have h := C9_null_fields_ignored exDB 700 1
    { due_date := Patch.null, description := Patch.null, tag_ids := Patch.set [] }
    "u1" exSettings exTask1 { exTask1 with updated_at := 700 }
    { tasks := [{ exTask1 with updated_at := 700 }]
      taskTags := []
      nextId := 2 }
    [publish_task_event exSettings ("updated") ({ exTask1 with updated_at := 700 }) "u1"]
    rfl rfl
  exact ⟨h.2.2.1 rfl, h.2.2.2.2.2.2.2.1, h.2.2.2.2.2.2.2.2.2.1 rfl⟩

/-- C10: `update_task` performs no due-date validation — with any
supplied due date strictly in the past, the update succeeds, the
returned and persisted task carries that past due date, while
`create_task` given the same due date at the same instant fails with
the validation error. -/
theorem C10_update_accepts_past_due_date
    (db : DB) (now : Int) (task_id : Nat) (u : TaskUpdate) (user_id : String)
    (s : Settings) (t : Task) (d : Int) (input : TaskCreate)
    (ht : get_task db task_id user_id = Except.ok t)
    (hd : u.due_date = Patch.set d) (hpast : d < now)
    (hin : input.due_date = some d) :
    (update_task db now task_id u user_id s).1 =
      Except.ok (updated_task u t now) ∧
    (updated_task u t now).due_date = some d ∧
    updated_task u t now ∈ (update_task db now task_id u user_id s).2.1.tasks ∧
    create_task db now input user_id s =
      (Except.error (ServiceError.validationError ("Due date cannot be in the past")
        (some ("due_date"))), db, []) := by
  have hfind : db.tasks.find?
      (fun x => x.id == task_id && x.user_id == user_id) = some t := by
    unfold get_task at ht
    cases hff : db.tasks.find? (fun x => x.id == task_id && x.user_id == user_id) with
    | none => simp [hff] at ht
    | some t0 =>
        simp only [hff, Except.ok.injEq] at ht
        exact congrArg some ht
  have hmemt : t ∈ db.tasks := List.mem_of_find?_eq_some hfind
  have hpa := List.find?_some hfind
  simp only [Bool.and_eq_true] at hpa
  have htid : (t.id == task_id) = true := hpa.1
  refine ⟨?_, ?_, ?_, ?_⟩
  · simp [update_task, ht]
  · simp [updated_task, apply_update, hd, Patch.applyOpt]
  · simp only [update_task, ht]
    have hmm := List.mem_map_of_mem
      (fun x => if x.id == task_id then updated_task u t now else x) hmemt
    simpa [htid] using hmm
  · exact C5_create_past_due_rejected db now input user_id s d hin hpast

/-- C10, witness: at instant 2000, updating task 1 with the past due
date 100 succeeds and persists it, while creating a task with the same
due date fails with the validation error. -/
theorem C10_witness :
    (update_task exDB 2000 1 { due_date := Patch.set 100 } "u1" exSettings).1 =
      Except.ok (updated_task { due_date := Patch.set 100 } exTask1 2000) ∧
    (updated_task { due_date := Patch.set 100 } exTask1 2000).due_date = some 100 ∧
    updated_task { due_date := Patch.set 100 } exTask1 2000 ∈
      (update_task exDB 2000 1 { due_date := Patch.set 100 } "u1" exSettings).2.1.tasks ∧
    create_task exDB 2000 { title := ("past"), due_date := some 100 } "u1" exSettings =
      (Except.error (ServiceError.validationError ("Due date cannot be in the past")
        (some ("due_date"))), exDB, []) :=
  C10_update_accepts_past_due_date exDB 2000 1 { due_date := Patch.set 100 }
    "u1" exSettings exTask1 100 { title := ("past"), due_date := some 100 }
    rfl rfl (by decide) rfl

/-! Helper lemmas for the idempotence of `update_task`. -/

/-- Re-applying a patch field changes nothing. -/
theorem Patch.apply_idem {α : Type} (p : Patch α) (x : α) :
    p.apply (p.apply x) = p.apply x := by
  cases p <;> rfl

/-- Re-applying a nullable patch field changes nothing. -/
theorem Patch.applyOpt_idem {α : Type} (p : Patch α) (x : Option α) :
    p.applyOpt (p.applyOpt x) = p.applyOpt x := by
  cases p <;> rfl

/-- Running the `setattr` loop again over a row it has just produced
changes nothing (the stamp only touches `updated_at`, which the loop
does not read or write). -/
theorem apply_update_updated (u : TaskUpdate) (t : Task) (now : Int) :
    apply_update u (updated_task u t now) = updated_task u t now := by
  unfold updated_task apply_update
  simp [Patch.apply_idem, Patch.applyOpt_idem]

/-- When the `setattr` loop fixes a row, the stamp is the only change a
further run makes. -/
theorem updated_task_eq (u : TaskUpdate) (x : Task) (n : Int)
    (hx : apply_update u x = x) :
    updated_task u x n = { x with updated_at := n } := by
  unfold updated_task
  rw [hx]

/-- Replacing the row found by the scoped (id, user) lookup with a row
carrying the same id and owner moves the lookup to the replacement,
provided the id identifies at most one row (primary-key
uniqueness in the store). -/
theorem find_replace (l : List Task) (task_id : Nat) (user_id : String) (t t1 : Task)
    (hf : l.find? (fun x => x.id == task_id && x.user_id == user_id) = some t)
    (huniq : ∀ x ∈ l, x.id = t.id → x = t)
    (hid : t1.id = t.id) (huid : t1.user_id = t.user_id) :
    (l.map (fun x => if x.id == task_id then t1 else x)).find?
      (fun x => x.id == task_id && x.user_id == user_id) = some t1 := by
  have hpt := List.find?_some hf
  simp only [Bool.and_eq_true, beq_iff_eq] at hpt
  induction l with
  | nil => simp at hf
  | cons a l ih =>
      by_cases hpa : (a.id == task_id && a.user_id == user_id) = true
      · rw [@List.find?_cons_of_pos Task
          (fun x => x.id == task_id && x.user_id == user_id) a l hpa] at hf
        have ha : a = t := by simpa using hf
        subst ha
        have hft : (if a.id == task_id then t1 else a) = t1 := by
          simp [hpt.1]
        have hpt1 : (t1.id == task_id && t1.user_id == user_id) = true := by
          simp [hid, huid, hpt.1, hpt.2]
        simp only [List.map_cons, hft]
        exact @List.find?_cons_of_pos Task
          (fun x => x.id == task_id && x.user_id == user_id) t1 _ hpt1
      · rw [@List.find?_cons_of_neg Task
          (fun x => x.id == task_id && x.user_id == user_id) a l hpa] at hf
        by_cases haid : (a.id == task_id) = true
        · exfalso
          have haeq : a = t := huniq a (List.mem_cons_self a l) (by
            have h1 : a.id = task_id := by simpa using haid
            rw [h1, hpt.1])
          apply hpa
          rw [haeq]
          simp [hpt.1, hpt.2]
        · have hfa : (if a.id == task_id then t1 else a) = a := by
            simp [haid]
          simp only [List.map_cons, hfa]
          rw [@List.find?_cons_of_neg Task
            (fun x => x.id == task_id && x.user_id == user_id) a _ hpa]
          exact ih hf (fun x hx hxe => huniq x (List.mem_cons_of_mem a hx) hxe)

/-- C6: `update_task` has PATCH semantics.  Frame: every field left
unset by the input keeps its prior value on the returned row, the
fields outside the schema (id, user_id, created_at, completed_at) are
always untouched, and an unset tag list leaves the association rows
untouched.  Idempotence: running the very same update again over the
committed store succeeds and yields the same row and the same store,
except that `updated_at` carries the stamp of the second run (last
conjunct: the row after the second run is the row after the first run
with only `updated_at` changed). -/
theorem C6_partial_update_frame_and_idempotence
    (db : DB) (now now2 : Int) (task_id : Nat) (u : TaskUpdate) (user_id : String)
    (s : Settings) (t t1 : Task) (db1 : DB) (e1 : List Effect)
    (ht : get_task db task_id user_id = Except.ok t)
    (h : update_task db now task_id u user_id s = (Except.ok t1, db1, e1))
    (huniq : ∀ x ∈ db.tasks, x.id = t.id → x = t) :
    (u.title = Patch.unset → t1.title = t.title) ∧
    (u.description = Patch.unset → t1.description = t.description) ∧
    (u.due_date = Patch.unset → t1.due_date = t.due_date) ∧
    (u.priority = Patch.unset → t1.priority = t.priority) ∧
    (u.status = Patch.unset → t1.status = t.status) ∧
    (u.is_recurring = Patch.unset → t1.is_recurring = t.is_recurring) ∧
    (u.recurring_pattern_id = Patch.unset →
      t1.recurring_pattern_id = t.recurring_pattern_id) ∧
    t1.id = t.id ∧ t1.user_id = t.user_id ∧ t1.created_at = t.created_at ∧
    t1.completed_at = t.completed_at ∧
    (u.tag_ids = Patch.unset → db1.taskTags = db.taskTags) ∧
    update_task db1 now2 task_id u user_id s =
      (Except.ok (updated_task u t1 now2),
       { db1 with tasks := db1.tasks.map (fun x => if x.id == task_id then updated_task u t1 now2 else x) },
       [publish_task_event s ("updated") (updated_task u t1 now2) user_id]) ∧
    updated_task u t1 now2 = { t1 with updated_at := now2 } := by
  have hfind : db.tasks.find?
      (fun x => x.id == task_id && x.user_id == user_id) = some t := by
    unfold get_task at ht
    cases hff : db.tasks.find? (fun x => x.id == task_id && x.user_id == user_id) with
    | none => simp [hff] at ht
    | some t0 =>
        simp only [hff, Except.ok.injEq] at ht
        exact congrArg some ht
  simp only [update_task, ht, Prod.mk.injEq, Except.ok.injEq] at h
  obtain ⟨h1, h2, h3⟩ := h
  subst h1
  subst h2
  subst h3
  have hget2 : get_task
      { tasks := db.tasks.map
          (fun x => if x.id == task_id then updated_task u t now else x)
        taskTags := match u.tag_ids with
          | Patch.set l => update_tags db.taskTags task_id l
          | _ => db.taskTags
        nextId := db.nextId } task_id user_id = Except.ok (updated_task u t now) := by
    unfold get_task
    dsimp only
    rw [find_replace db.tasks task_id user_id t (updated_task u t now) hfind huniq rfl rfl]
  have happ : apply_update u (updated_task u t now) = updated_task u t now :=
    apply_update_updated u t now
  refine ⟨?_, ?_, ?_, ?_, ?_, ?_, ?_, ?_, ?_, ?_, ?_, ?_, ?_, ?_⟩
  · intro hq; simp [updated_task, apply_update, hq, Patch.apply]
  · intro hq; simp [updated_task, apply_update, hq, Patch.applyOpt]
  · intro hq; simp [updated_task, apply_update, hq, Patch.applyOpt]
  · intro hq; simp [updated_task, apply_update, hq, Patch.apply]
  · intro hq; simp [updated_task, apply_update, hq, Patch.apply]
  · intro hq; simp [updated_task, apply_update, hq, Patch.apply]
  · intro hq; simp [updated_task, apply_update, hq, Patch.applyOpt]
  · simp [updated_task, apply_update]
  · simp [updated_task, apply_update]
  · simp [updated_task, apply_update]
  · simp [updated_task, apply_update]
  · intro hq; simp only [hq]
  · simp only [update_task, hget2]
    cases hq : u.tag_ids with
    | set l => simp [hq, update_tags_idem]
    | unset => simp [hq]
    | null => simp [hq]
  · exact updated_task_eq u (updated_task u t now) now2 happ

/-- C6, witness: the empty update (all fields unset) applied to
`exTask1` at 600 leaves every field unchanged, leaves the tag rows
unchanged, and running it again at 700 only re-stamps `updated_at`. -/
theorem C6_witness :
    (Patch.unset = (Patch.unset : Patch String) →
      ({ exTask1 with updated_at := 600 } : Task).title = exTask1.title) ∧
    (Patch.unset = (Patch.unset : Patch String) →
      ({ exTask1 with updated_at := 600 } : Task).description = exTask1.description) ∧
    (Patch.unset = (Patch.unset : Patch Int) →
      ({ exTask1 with updated_at := 600 } : Task).due_date = exTask1.due_date) ∧
    (Patch.unset = (Patch.unset : Patch PriorityEnum) →
      ({ exTask1 with updated_at := 600 } : Task).priority = exTask1.priority) ∧
    (Patch.unset = (Patch.unset : Patch TaskStatusEnum) →
      ({ exTask1 with updated_at := 600 } : Task).status = exTask1.status) ∧
    (Patch.unset = (Patch.unset : Patch Bool) →
      ({ exTask1 with updated_at := 600 } : Task).is_recurring = exTask1.is_recurring) ∧
    (Patch.unset = (Patch.unset : Patch Nat) →
      ({ exTask1 with updated_at := 600 } : Task).recurring_pattern_id =
        exTask1.recurring_pattern_id) ∧
    ({ exTask1 with updated_at := 600 } : Task).id = exTask1.id ∧
    ({ exTask1 with updated_at := 600 } : Task).user_id = exTask1.user_id ∧
    ({ exTask1 with updated_at := 600 } : Task).created_at = exTask1.created_at ∧
    ({ exTask1 with updated_at := 600 } : Task).completed_at = exTask1.completed_at ∧
    (Patch.unset = (Patch.unset : Patch (List Nat)) →
      ({ tasks := [{ exTask1 with updated_at := 600 }]
         taskTags := exDB.taskTags
         nextId := 2 } : DB).taskTags = exDB.taskTags) ∧
    update_task { tasks := [{ exTask1 with updated_at := 600 }]
                  taskTags := exDB.taskTags
                  nextId := 2 } 700 1 {} "u1" exSettings =
      (Except.ok (updated_task {} ({ exTask1 with updated_at := 600 }) 700),
       { tasks := [({ exTask1 with updated_at := 600 } : Task)].map (fun x => if x.id == 1 then updated_task {} ({ exTask1 with updated_at := 600 }) 700 else x)
         taskTags := exDB.taskTags
         nextId := 2 },
       [publish_task_event exSettings ("updated") (updated_task {} ({ exTask1 with updated_at := 600 }) 700) "u1"]) ∧
    updated_task {} ({ exTask1 with updated_at := 600 }) 700 =
      { exTask1 with updated_at := 700 } := by
  have h := C6_partial_update_frame_and_idempotence exDB 600 700 1 {} "u1"
    exSettings exTask1 { exTask1 with updated_at := 600 }
    { tasks := [{ exTask1 with updated_at := 600 }]
      taskTags := exDB.taskTags
      nextId := 2 }
    [publish_task_event exSettings ("updated") ({ exTask1 with updated_at := 600 }) "u1"]
    rfl rfl (by decide)
  exact ⟨h.1, h.2.1, h.2.2.1, h.2.2.2.1, h.2.2.2.2.1, h.2.2.2.2.2.1,
    h.2.2.2.2.2.2.1, h.2.2.2.2.2.2.2.1, h.2.2.2.2.2.2.2.2.1,
    h.2.2.2.2.2.2.2.2.2.1, h.2.2.2.2.2.2.2.2.2.2.1,
    h.2.2.2.2.2.2.2.2.2.2.2.1, h.2.2.2.2.2.2.2.2.2.2.2.2.1,
    h.2.2.2.2.2.2.2.2.2.2.2.2.2⟩

end Phase5
